import Mathlib

/-!
Shallow embedding of the `RideSurgeFHE` Solidity contract
(`contracts` core, Solidity 0.8.24, fhEVM).

Modelling conventions:
  * `euint32` ciphertext handles are opaque tokens; the contract never
    branches on their content, so we wrap the value the oracle would
    eventually decrypt in a one-field structure `EUint32`.  `FHE.asEuint32`
    trivially encrypts a plaintext.
  * Solidity `mapping(uint256 => T)` becomes `Nat → T` with the zero-value
    default, exactly as the EVM storage behaves.
  * Each public function becomes `State → args → Except SolError (State × List Event)`;
    a `require` failure or checked-arithmetic overflow is `.error`, and the
    revert semantics (`runOp`) discards every effect of a failed call.
  * External-oracle authority is an input: `FHE.requestDecryption` returns
    the oracle-chosen request id (parameter `reqId`), and the outcome of
    `FHE.checkSignatures` is the boolean parameter `proofOk` (the call
    reverts when the authenticity proof does not validate).
  * `abi.decode(cleartexts, (uint32[]))` becomes a `List Nat` whose used
    elements must be genuine `uint32` values (`< 2^32`), reverting otherwise.
  * Solidity 0.8 checked arithmetic: the `uint32` product
    `requestCount * 100` reverts when the result does not fit in 32 bits.
-/

namespace RideSurgeFHE

/-- Opaque ciphertext handle for an encrypted `uint32` (fhEVM `euint32`). -/
structure EUint32 where
  val : Nat
  deriving DecidableEq, Repr

namespace FHE

/-- Trivial encryption of a plaintext `uint32` (fhEVM `FHE.asEuint32`). -/
def asEuint32 (n : Nat) : EUint32 := ⟨n⟩

end FHE

/-- The modulus of `uint32`. -/
def UINT32 : Nat := 4294967296

/-- Struct `RideDemand` of the contract. -/
structure RideDemand where
  encryptedZoneId : EUint32
  encryptedRequestCount : EUint32
  encryptedTimestamp : EUint32
  deriving DecidableEq, Repr

/-- Struct `DriverSupply` of the contract. -/
structure DriverSupply where
  encryptedZoneId : EUint32
  encryptedAvailableDrivers : EUint32
  encryptedTimestamp : EUint32
  deriving DecidableEq, Repr

/-- Struct `SurgePricing` of the contract. -/
structure SurgePricing where
  encryptedZoneId : EUint32
  encryptedMultiplier : EUint32
  encryptedBasePrice : EUint32
  isVerified : Bool
  deriving DecidableEq, Repr

/-- The contract storage: the three counters, the three record mappings and
the three private request-correlation mappings. -/
structure State where
  demandCount : Nat
  supplyCount : Nat
  pricingCount : Nat
  rideDemands : Nat → RideDemand
  driverSupplies : Nat → DriverSupply
  surgePricings : Nat → SurgePricing
  requestToDemandId : Nat → Nat
  requestToSupplyId : Nat → Nat
  requestToPricingId : Nat → Nat

/-- The deployed contract: every counter zero, every mapping at its
zero value. -/
def initState : State where
  demandCount := 0
  supplyCount := 0
  pricingCount := 0
  rideDemands := fun _ => ⟨⟨0⟩, ⟨0⟩, ⟨0⟩⟩
  driverSupplies := fun _ => ⟨⟨0⟩, ⟨0⟩, ⟨0⟩⟩
  surgePricings := fun _ => ⟨⟨0⟩, ⟨0⟩, ⟨0⟩, false⟩
  requestToDemandId := fun _ => 0
  requestToSupplyId := fun _ => 0
  requestToPricingId := fun _ => 0

/-- Events emitted by the contract. -/
inductive Event where
  | DemandRecorded (demandId : Nat)
  | SupplyRecorded (supplyId : Nat)
  | PricingCalculated (pricingId : Nat)
  | PricingVerified (pricingId : Nat)
  deriving DecidableEq, Repr

/-- Revert reasons: the `require` messages of the contract, plus the
implicit reverts of `abi.decode` and of checked `uint32` arithmetic. -/
inductive SolError where
  | invalidIds        -- require "Invalid IDs"        (calculateSurgePricing)
  | invalidRequest    -- require "Invalid request"    (the three callbacks)
  | badProof          -- FHE.checkSignatures reverts
  | zoneMismatch      -- require "Zone mismatch"      (computePricing)
  | invalidPricingId  -- require "Invalid pricing ID" (verifyPricing, requestPricingProof)
  | notVerified       -- require "Not verified"       (requestPricingProof)
  | overflow          -- checked uint32 arithmetic overflow
  | decodeError       -- abi.decode / out-of-bounds array access
  deriving DecidableEq, Repr

/-- Function `recordDemand(euint32 zoneId, euint32 requestCount)`:
no `require`, increments `demandCount`, stores the new record at the new
count and emits `DemandRecorded`.  `ts` is `block.timestamp`, truncated to
`uint32` for the encrypted timestamp as in the source. -/
def recordDemand (s : State) (zoneId requestCount : EUint32) (ts : Nat) :
    State × List Event :=
  let newId := s.demandCount + 1
  ({ s with
      demandCount := newId
      rideDemands := Function.update s.rideDemands newId
        ⟨zoneId, requestCount, FHE.asEuint32 (ts % UINT32)⟩ },
   [Event.DemandRecorded newId])

/-- Function `recordSupply(euint32 zoneId, euint32 availableDrivers)`:
symmetric to `recordDemand` on the supply counter and mapping. -/
def recordSupply (s : State) (zoneId availableDrivers : EUint32) (ts : Nat) :
    State × List Event :=
  let newId := s.supplyCount + 1
  ({ s with
      supplyCount := newId
      driverSupplies := Function.update s.driverSupplies newId
        ⟨zoneId, availableDrivers, FHE.asEuint32 (ts % UINT32)⟩ },
   [Event.SupplyRecorded newId])

/-- Function `calculateSurgePricing(uint256 demandId, uint256 supplyId)`:
requires `demandId <= demandCount && supplyId <= supplyCount`
("Invalid IDs"), submits the four ciphertext handles for decryption and
stores the correlation entries for the oracle-chosen request id `reqId`. -/
def calculateSurgePricing (s : State) (demandId supplyId reqId : Nat) :
    Except SolError (State × List Event) :=
  if demandId ≤ s.demandCount ∧ supplyId ≤ s.supplyCount then
    Except.ok
      ({ s with
          requestToDemandId := Function.update s.requestToDemandId reqId demandId
          requestToSupplyId := Function.update s.requestToSupplyId reqId supplyId },
       [])
  else
    Except.error SolError.invalidIds

/-- The surge-multiplier branch of `computePricing` (source lines 102-110),
with Solidity 0.8 checked `uint32` arithmetic: the product
`requestCount * 100` reverts when it does not fit in 32 bits. -/
def surgeMultiplier (requestCount availableDrivers : Nat) : Except SolError Nat :=
  if availableDrivers = 0 then
    Except.ok 300
  else if UINT32 ≤ requestCount * 100 then
    Except.error SolError.overflow
  else if requestCount * 100 / availableDrivers > 200 then Except.ok 250
  else if requestCount * 100 / availableDrivers > 150 then Except.ok 200
  else if requestCount * 100 / availableDrivers > 100 then Except.ok 150
  else Except.ok 100

/-- Callback `computePricing(uint256 requestId, bytes cleartexts, bytes proof)`:
requires registered correlation entries (`demandId != 0 && supplyId != 0`,
"Invalid request"), checks the authenticity proof, decodes the four
plaintext `uint32` values, requires `demandZone == supplyZone`
("Zone mismatch"), computes the multiplier and appends a new
`SurgePricing` record with base price 1000 and `isVerified = false`. -/
def computePricing (s : State) (requestId : Nat) (cleartexts : List Nat)
    (proofOk : Bool) : Except SolError (State × List Event) :=
  if s.requestToDemandId requestId = 0 ∨ s.requestToSupplyId requestId = 0 then
    Except.error SolError.invalidRequest
  else if proofOk = false then
    Except.error SolError.badProof
  else
    match cleartexts with
    | demandZone :: requestCount :: supplyZone :: availableDrivers :: _ =>
      if demandZone < UINT32 ∧ requestCount < UINT32 ∧
          supplyZone < UINT32 ∧ availableDrivers < UINT32 then
        if demandZone = supplyZone then
          match surgeMultiplier requestCount availableDrivers with
          | Except.ok multiplier =>
            Except.ok
              ({ s with
                  pricingCount := s.pricingCount + 1
                  surgePricings := Function.update s.surgePricings (s.pricingCount + 1)
                    ⟨FHE.asEuint32 demandZone, FHE.asEuint32 multiplier,
                     FHE.asEuint32 1000, false⟩ },
               [Event.PricingCalculated (s.pricingCount + 1)])
          | Except.error e => Except.error e
        else
          Except.error SolError.zoneMismatch
      else
        Except.error SolError.decodeError
    | _ => Except.error SolError.decodeError

/-- Function `verifyPricing(uint256 pricingId)`: requires
`pricingId <= pricingCount` ("Invalid pricing ID"), submits the record's
three handles for decryption and stores the correlation entry. -/
def verifyPricing (s : State) (pricingId reqId : Nat) :
    Except SolError (State × List Event) :=
  if pricingId ≤ s.pricingCount then
    Except.ok
      ({ s with
          requestToPricingId := Function.update s.requestToPricingId reqId pricingId },
       [])
  else
    Except.error SolError.invalidPricingId

/-- Callback `validatePricing(uint256 requestId, bytes cleartexts, bytes proof)`:
requires a registered correlation entry (`pricingId != 0`), checks the
proof, decodes the three plaintext values, and when
`multiplier >= 100 && multiplier <= 300 && basePrice > 0` flips
`isVerified` to `true` and emits `PricingVerified`; otherwise it succeeds
silently with no state change and no event. -/
def validatePricing (s : State) (requestId : Nat) (cleartexts : List Nat)
    (proofOk : Bool) : Except SolError (State × List Event) :=
  if s.requestToPricingId requestId = 0 then
    Except.error SolError.invalidRequest
  else if proofOk = false then
    Except.error SolError.badProof
  else
    match cleartexts with
    | zoneId :: multiplier :: basePrice :: _ =>
      if zoneId < UINT32 ∧ multiplier < UINT32 ∧ basePrice < UINT32 then
        if 100 ≤ multiplier ∧ multiplier ≤ 300 ∧ 0 < basePrice then
          Except.ok
            ({ s with
                surgePricings := Function.update s.surgePricings
                  (s.requestToPricingId requestId)
                  { s.surgePricings (s.requestToPricingId requestId) with
                      isVerified := true } },
             [Event.PricingVerified (s.requestToPricingId requestId)])
        else
          Except.ok (s, [])
      else
        Except.error SolError.decodeError
    | _ => Except.error SolError.decodeError

/-- Function `requestPricingProof(uint256 pricingId)`: requires
`pricingId <= pricingCount` ("Invalid pricing ID") and
`surgePricings[pricingId].isVerified` ("Not verified"), then submits the
multiplier handle for decryption and stores the correlation entry. -/
def requestPricingProof (s : State) (pricingId reqId : Nat) :
    Except SolError (State × List Event) :=
  if pricingId ≤ s.pricingCount then
    if (s.surgePricings pricingId).isVerified then
      Except.ok
        ({ s with
            requestToPricingId := Function.update s.requestToPricingId reqId pricingId },
         [])
    else
      Except.error SolError.notVerified
  else
    Except.error SolError.invalidPricingId

/-- Callback `decryptMultiplier(uint256 requestId, bytes cleartexts, bytes proof)`:
requires a registered correlation entry, checks the proof, decodes one
plaintext `uint32` and performs no state mutation. -/
def decryptMultiplier (s : State) (requestId : Nat) (cleartexts : List Nat)
    (proofOk : Bool) : Except SolError (State × List Event) :=
  if s.requestToPricingId requestId = 0 then
    Except.error SolError.invalidRequest
  else if proofOk = false then
    Except.error SolError.badProof
  else
    match cleartexts with
    | [multiplier] =>
      if multiplier < UINT32 then Except.ok (s, [])
      else Except.error SolError.decodeError
    | _ => Except.error SolError.decodeError

/-- One external call to the contract, with the oracle-controlled inputs
(the request id returned by `FHE.requestDecryption`, the cleartext tuple
and the outcome of the authenticity-proof check) made explicit. -/
inductive Op where
  | recordDemand (zoneId requestCount : EUint32) (ts : Nat)
  | recordSupply (zoneId availableDrivers : EUint32) (ts : Nat)
  | calculateSurgePricing (demandId supplyId reqId : Nat)
  | computePricing (requestId : Nat) (cleartexts : List Nat) (proofOk : Bool)
  | verifyPricing (pricingId reqId : Nat)
  | validatePricing (requestId : Nat) (cleartexts : List Nat) (proofOk : Bool)
  | requestPricingProof (pricingId reqId : Nat)
  | decryptMultiplier (requestId : Nat) (cleartexts : List Nat) (proofOk : Bool)

/-- Dispatch one call to the corresponding contract function. -/
def step (s : State) : Op → Except SolError (State × List Event)
  | Op.recordDemand z c ts => Except.ok (recordDemand s z c ts)
  | Op.recordSupply z d ts => Except.ok (recordSupply s z d ts)
  | Op.calculateSurgePricing d su r => calculateSurgePricing s d su r
  | Op.computePricing r cts p => computePricing s r cts p
  | Op.verifyPricing pid r => verifyPricing s pid r
  | Op.validatePricing r cts p => validatePricing s r cts p
  | Op.requestPricingProof pid r => requestPricingProof s pid r
  | Op.decryptMultiplier r cts p => decryptMultiplier s r cts p

/-- EVM revert semantics: a failed call leaves the storage untouched and
emits nothing. -/
def runOp (s : State) (op : Op) : State × List Event :=
  match step s op with
  | Except.ok r => r
  | Except.error _ => (s, [])

/-- Run a sequence of external calls, collecting the emitted events. -/
def execTrace (s : State) : List Op → State × List Event
  | [] => (s, [])
  | op :: rest =>
    ((execTrace (runOp s op).1 rest).1,
     (runOp s op).2 ++ (execTrace (runOp s op).1 rest).2)

/-- Pricing function exactly as the specification words it: the five-bucket
function of the plaintext pair, with truncating natural division and no
overflow case.  Used only to compare the source's branch against the
spec. -/
def specMultiplier (requestCount availableDrivers : Nat) : Nat :=
  if availableDrivers = 0 then 300
  else if requestCount * 100 / availableDrivers > 200 then 250
  else if requestCount * 100 / availableDrivers > 150 then 200
  else if requestCount * 100 / availableDrivers > 100 then 150
  else 100

/-- Whether a call succeeded (did not revert). -/
def stepOk (e : Except SolError (State × List Event)) : Bool :=
  match e with
  | Except.ok _ => true
  | Except.error _ => false

/-- Sample state: one demand and one supply record, with a pairing decrypt
request outstanding under oracle request id 7 for the pair `(1, 1)`. -/
def sampleState : State :=
  { initState with
      demandCount := 1
      supplyCount := 1
      requestToDemandId := Function.update initState.requestToDemandId 7 1
      requestToSupplyId := Function.update initState.requestToSupplyId 7 1 }

/-- State after the pairing callback for request id 7 has been delivered
once on `sampleState` with cleartexts `[5, 250, 5, 100]`. -/
def sampleReplayed : State :=
  match computePricing sampleState 7 [5, 250, 5, 100] true with
  | Except.ok r => r.1
  | Except.error _ => sampleState

/-- State after that same pairing callback has been delivered a second
time with the identical request id and payload. -/
def sampleReplayedTwice : State :=
  match computePricing sampleReplayed 7 [5, 250, 5, 100] true with
  | Except.ok r => r.1
  | Except.error _ => sampleReplayed

/-- Sample trace: record one demand and one supply, pair them under
request id 7, deliver the pairing callback, request verification under
request id 8 and deliver a passing verification callback. -/
def sampleTrace : List Op :=
  [Op.recordDemand ⟨11⟩ ⟨21⟩ 1000,
   Op.recordSupply ⟨12⟩ ⟨22⟩ 1001,
   Op.calculateSurgePricing 1 1 7,
   Op.computePricing 7 [5, 250, 5, 100] true,
   Op.verifyPricing 1 8,
   Op.validatePricing 8 [5, 250, 1000] true]

/-- Inversion of a successful `calculateSurgePricing` call: the two range
checks passed and the only effect is the two correlation-entry writes. -/
theorem calculateSurgePricing_ok (s : State) (demandId supplyId reqId : Nat)
    (out : State × List Event)
    (h : calculateSurgePricing s demandId supplyId reqId = Except.ok out) :
    demandId ≤ s.demandCount ∧ supplyId ≤ s.supplyCount ∧
    out.1 = { s with
        requestToDemandId := Function.update s.requestToDemandId reqId demandId
        requestToSupplyId := Function.update s.requestToSupplyId reqId supplyId } ∧
    out.2 = [] := by
  unfold calculateSurgePricing at h
  split at h
  · cases h
    exact ⟨by tauto, by tauto, rfl, rfl⟩
  · cases h

/-- Inversion of a successful pairing callback `computePricing`: both
correlation entries were registered, the proof validated, the zones
matched, the multiplier computation did not overflow, and the only
effects are the counter bump and the fresh unverified record. -/
theorem computePricing_ok (s : State) (requestId : Nat) (cleartexts : List Nat)
    (proofOk : Bool) (out : State × List Event)
    (h : computePricing s requestId cleartexts proofOk = Except.ok out) :
    s.requestToDemandId requestId ≠ 0 ∧ s.requestToSupplyId requestId ≠ 0 ∧
    proofOk = true ∧
    ∃ dz rc sz ad rest m, cleartexts = dz :: rc :: sz :: ad :: rest ∧
      dz = sz ∧ surgeMultiplier rc ad = Except.ok m ∧
      out.1 = { s with
          pricingCount := s.pricingCount + 1
          surgePricings := Function.update s.surgePricings (s.pricingCount + 1)
            ⟨FHE.asEuint32 dz, FHE.asEuint32 m, FHE.asEuint32 1000, false⟩ } ∧
      out.2 = [Event.PricingCalculated (s.pricingCount + 1)] := by
  unfold computePricing at h
  split at h
  · cases h
  · rename_i hids
    split at h
    · cases h
    · rename_i hproof
      split at h
      · rename_i dz rc sz ad rest
        split at h
        · split at h
          · rename_i hzone
            split at h
            · rename_i m hm
              cases h
              push_neg at hids
              refine ⟨hids.1, hids.2, ?_, dz, rc, sz, ad, rest, m, rfl,
                hzone, hm, rfl, rfl⟩
              revert hproof
              cases proofOk <;> simp
            · cases h
          · cases h
        · cases h
      · cases h

/-- Inversion of a successful `verifyPricing` call: the range check passed
and the only effect is the correlation-entry write. -/
theorem verifyPricing_ok (s : State) (pricingId reqId : Nat)
    (out : State × List Event)
    (h : verifyPricing s pricingId reqId = Except.ok out) :
    pricingId ≤ s.pricingCount ∧
    out.1 = { s with
        requestToPricingId := Function.update s.requestToPricingId reqId pricingId } ∧
    out.2 = [] := by
  unfold verifyPricing at h
  split at h
  · cases h
    exact ⟨by assumption, rfl, rfl⟩
  · cases h

/-- Inversion of a successful verification callback `validatePricing`: the
correlation entry was registered and the proof validated; either the
range check passed and the only effect is the `isVerified` flip, or it
failed and the call succeeds silently with no effect at all. -/
theorem validatePricing_ok (s : State) (requestId : Nat) (cleartexts : List Nat)
    (proofOk : Bool) (out : State × List Event)
    (h : validatePricing s requestId cleartexts proofOk = Except.ok out) :
    s.requestToPricingId requestId ≠ 0 ∧ proofOk = true ∧
    ((out.1 = { s with
        surgePricings := Function.update s.surgePricings (s.requestToPricingId requestId)
          { s.surgePricings (s.requestToPricingId requestId) with isVerified := true } } ∧
      out.2 = [Event.PricingVerified (s.requestToPricingId requestId)]) ∨
     (out.1 = s ∧ out.2 = [])) := by
  unfold validatePricing at h
  split at h
  · cases h
  · rename_i hid
    split at h
    · cases h
    · rename_i hproof
      refine ⟨hid, by revert hproof; cases proofOk <;> simp, ?_⟩
      split at h
      · split at h
        · split at h
          · cases h
            exact Or.inl ⟨rfl, rfl⟩
          · cases h
            exact Or.inr ⟨rfl, rfl⟩
        · cases h
      · cases h

/-- Inversion of a successful `requestPricingProof` call: both checks
passed — in particular the record is verified — and the only effect is
the correlation-entry write. -/
theorem requestPricingProof_ok (s : State) (pricingId reqId : Nat)
    (out : State × List Event)
    (h : requestPricingProof s pricingId reqId = Except.ok out) :
    pricingId ≤ s.pricingCount ∧
    (s.surgePricings pricingId).isVerified = true ∧
    out.1 = { s with
        requestToPricingId := Function.update s.requestToPricingId reqId pricingId } ∧
    out.2 = [] := by
  unfold requestPricingProof at h
  split at h
  · split at h
    · cases h
      exact ⟨by assumption, by assumption, rfl, rfl⟩
    · cases h
  · cases h

/-- Inversion of a successful `decryptMultiplier` callback: the
correlation entry was registered, the proof validated, and nothing
changed. -/
theorem decryptMultiplier_ok (s : State) (requestId : Nat) (cleartexts : List Nat)
    (proofOk : Bool) (out : State × List Event)
    (h : decryptMultiplier s requestId cleartexts proofOk = Except.ok out) :
    s.requestToPricingId requestId ≠ 0 ∧ proofOk = true ∧
    out.1 = s ∧ out.2 = [] := by
  unfold decryptMultiplier at h
  split at h
  · cases h
  · rename_i hid
    split at h
    · cases h
    · rename_i hproof
      refine ⟨hid, by revert hproof; cases proofOk <;> simp, ?_⟩
      split at h
      · split at h
        · cases h
          exact ⟨rfl, rfl⟩
        · cases h
      · cases h

/-- Reachability invariant of the contract storage: every stored pricing
correlation entry points inside the allocated range, and no pricing id
beyond the allocated range carries a verified record. -/
def Inv (s : State) : Prop :=
  (∀ req, s.requestToPricingId req ≤ s.pricingCount) ∧
  (∀ p, s.pricingCount < p → (s.surgePricings p).isVerified = false)

theorem inv_initState : Inv initState :=
  ⟨fun _ => Nat.le_refl 0, fun _ _ => rfl⟩

/-- Every single external call preserves the reachability invariant. -/
theorem inv_runOp (s : State) (op : Op) (h : Inv s) : Inv (runOp s op).1 := by
  obtain ⟨h1, h2⟩ := h
  cases op with
  | recordDemand z c ts => exact ⟨h1, h2⟩
  | recordSupply z d ts => exact ⟨h1, h2⟩
  | calculateSurgePricing d su r =>
    simp only [runOp, step]
    cases hc : calculateSurgePricing s d su r with
    | ok out =>
      obtain ⟨-, -, hs, -⟩ := calculateSurgePricing_ok s d su r out hc
      show Inv out.1
      rw [hs]
      exact ⟨h1, h2⟩
    | error e => exact ⟨h1, h2⟩
  | computePricing r cts p =>
    simp only [runOp, step]
    cases hc : computePricing s r cts p with
    | ok out =>
      obtain ⟨-, -, -, dz, rc, sz, ad, rest, m, -, -, -, hs, -⟩ :=
        computePricing_ok s r cts p out hc
      show Inv out.1
      rw [hs]
      constructor
      · exact fun req => Nat.le_trans (h1 req) (Nat.le_succ _)
      · intro q hq
        change s.pricingCount + 1 < q at hq
        simp only [Function.update_apply]
        split
        · rfl
        · exact h2 q (by omega)
    | error e => exact ⟨h1, h2⟩
  | verifyPricing pid r =>
    simp only [runOp, step]
    cases hc : verifyPricing s pid r with
    | ok out =>
      obtain ⟨hle, hs, -⟩ := verifyPricing_ok s pid r out hc
      show Inv out.1
      rw [hs]
      refine ⟨fun req => ?_, h2⟩
      simp only [Function.update_apply]
      split
      · exact hle
      · exact h1 req
    | error e => exact ⟨h1, h2⟩
  | validatePricing r cts p =>
    simp only [runOp, step]
    cases hc : validatePricing s r cts p with
    | ok out =>
      obtain ⟨-, -, hcase⟩ := validatePricing_ok s r cts p out hc
      show Inv out.1
      rcases hcase with ⟨hs, -⟩ | ⟨hs, -⟩
      · rw [hs]
        refine ⟨h1, fun q hq => ?_⟩
        change s.pricingCount < q at hq
        simp only [Function.update_apply]
        split
        · rename_i hqe
          exact absurd (h1 r) (by omega)
        · exact h2 q hq
      · rw [hs]
        exact ⟨h1, h2⟩
    | error e => exact ⟨h1, h2⟩
  | requestPricingProof pid r =>
    simp only [runOp, step]
    cases hc : requestPricingProof s pid r with
    | ok out =>
      obtain ⟨hle, -, hs, -⟩ := requestPricingProof_ok s pid r out hc
      show Inv out.1
      rw [hs]
      refine ⟨fun req => ?_, h2⟩
      simp only [Function.update_apply]
      split
      · exact hle
      · exact h1 req
    | error e => exact ⟨h1, h2⟩
  | decryptMultiplier r cts p =>
    simp only [runOp, step]
    cases hc : decryptMultiplier s r cts p with
    | ok out =>
      obtain ⟨-, -, hs, -⟩ := decryptMultiplier_ok s r cts p out hc
      show Inv out.1
      rw [hs]
      exact ⟨h1, h2⟩
    | error e => exact ⟨h1, h2⟩

/-- A verified pricing record stays verified across every single external
call, whatever its arguments. -/
theorem isVerified_mono_runOp (s : State) (op : Op) (q : Nat) (h : Inv s)
    (hv : (s.surgePricings q).isVerified = true) :
    ((runOp s op).1.surgePricings q).isVerified = true := by
  obtain ⟨h1, h2⟩ := h
  cases op with
  | recordDemand z c ts => exact hv
  | recordSupply z d ts => exact hv
  | calculateSurgePricing d su r =>
    simp only [runOp, step]
    cases hc : calculateSurgePricing s d su r with
    | ok out =>
      obtain ⟨-, -, hs, -⟩ := calculateSurgePricing_ok s d su r out hc
      show (out.1.surgePricings q).isVerified = true
      rw [hs]
      exact hv
    | error e => exact hv
  | computePricing r cts p =>
    simp only [runOp, step]
    cases hc : computePricing s r cts p with
    | ok out =>
      obtain ⟨-, -, -, dz, rc, sz, ad, rest, m, -, -, -, hs, -⟩ :=
        computePricing_ok s r cts p out hc
      show (out.1.surgePricings q).isVerified = true
      rw [hs]
      simp only [Function.update_apply]
      split
      · rename_i hqe
        exact absurd hv (by rw [h2 q (by omega)]; simp)
      · exact hv
    | error e => exact hv
  | verifyPricing pid r =>
    simp only [runOp, step]
    cases hc : verifyPricing s pid r with
    | ok out =>
      obtain ⟨-, hs, -⟩ := verifyPricing_ok s pid r out hc
      show (out.1.surgePricings q).isVerified = true
      rw [hs]
      exact hv
    | error e => exact hv
  | validatePricing r cts p =>
    simp only [runOp, step]
    cases hc : validatePricing s r cts p with
    | ok out =>
      obtain ⟨-, -, hcase⟩ := validatePricing_ok s r cts p out hc
      show (out.1.surgePricings q).isVerified = true
      rcases hcase with ⟨hs, -⟩ | ⟨hs, -⟩
      · rw [hs]
        simp only [Function.update_apply]
        split
        · rfl
        · exact hv
      · rw [hs]
        exact hv
    | error e => exact hv
  | requestPricingProof pid r =>
    simp only [runOp, step]
    cases hc : requestPricingProof s pid r with
    | ok out =>
      obtain ⟨-, -, hs, -⟩ := requestPricingProof_ok s pid r out hc
      show (out.1.surgePricings q).isVerified = true
      rw [hs]
      exact hv
    | error e => exact hv
  | decryptMultiplier r cts p =>
    simp only [runOp, step]
    cases hc : decryptMultiplier s r cts p with
    | ok out =>
      obtain ⟨-, -, hs, -⟩ := decryptMultiplier_ok s r cts p out hc
      show (out.1.surgePricings q).isVerified = true
      rw [hs]
      exact hv
    | error e => exact hv

/-- The reachability invariant holds after any sequence of external calls
from an invariant state. -/
theorem inv_execTrace (s : State) (ops : List Op) (h : Inv s) :
    Inv (execTrace s ops).1 := by
  induction ops generalizing s with
  | nil => exact h
  | cons op rest ih => exact ih (runOp s op).1 (inv_runOp s op h)

/-- A verified pricing record stays verified across any sequence of
external calls from an invariant state. -/
theorem isVerified_mono_execTrace (s : State) (ops : List Op) (q : Nat)
    (h : Inv s) (hv : (s.surgePricings q).isVerified = true) :
    ((execTrace s ops).1.surgePricings q).isVerified = true := by
  induction ops generalizing s with
  | nil => exact hv
  | cons op rest ih =>
    exact ih (runOp s op).1 (inv_runOp s op h) (isVerified_mono_runOp s op q ⟨h.1, h.2⟩ hv)

/-- Demand ids carried by `DemandRecorded` events, in emission order. -/
def demandIds : List Event → List Nat
  | [] => []
  | Event.DemandRecorded i :: r => i :: demandIds r
  | _ :: r => demandIds r

/-- Supply ids carried by `SupplyRecorded` events, in emission order. -/
def supplyIds : List Event → List Nat
  | [] => []
  | Event.SupplyRecorded i :: r => i :: supplyIds r
  | _ :: r => supplyIds r

/-- Pricing ids carried by `PricingCalculated` events, in emission order. -/
def pricingIds : List Event → List Nat
  | [] => []
  | Event.PricingCalculated i :: r => i :: pricingIds r
  | _ :: r => pricingIds r

/-- How many demand records a single call creates (1 for `recordDemand`,
which never reverts, 0 for everything else). -/
def demandDelta : Op → Nat
  | Op.recordDemand _ _ _ => 1
  | _ => 0

/-- How many supply records a single call creates. -/
def supplyDelta : Op → Nat
  | Op.recordSupply _ _ _ => 1
  | _ => 0

theorem demandIds_append (l1 l2 : List Event) :
    demandIds (l1 ++ l2) = demandIds l1 ++ demandIds l2 := by
  induction l1 with
  | nil => rfl
  | cons e r ih => cases e <;> simp [demandIds, ih]

theorem supplyIds_append (l1 l2 : List Event) :
    supplyIds (l1 ++ l2) = supplyIds l1 ++ supplyIds l2 := by
  induction l1 with
  | nil => rfl
  | cons e r ih => cases e <;> simp [supplyIds, ih]

theorem pricingIds_append (l1 l2 : List Event) :
    pricingIds (l1 ++ l2) = pricingIds l1 ++ pricingIds l2 := by
  induction l1 with
  | nil => rfl
  | cons e r ih => cases e <;> simp [pricingIds, ih]

/-- Generic single-call shape shared by the three id families: the counter
never decreases and the ids emitted by the call are exactly the freshly
allocated segment above the old counter. -/
def IdFamilyStep (count : State → Nat) (ids : List Event → List Nat)
    (s : State) (op : Op) : Prop :=
  count s ≤ count (runOp s op).1 ∧
  ids (runOp s op).2 =
    List.range' (count s + 1) (count (runOp s op).1 - count s)

/-- Generic trace lemma: if every single call allocates its family's ids
densely above the counter, so does every trace. -/
theorem idFamily_execTrace (count : State → Nat) (ids : List Event → List Nat)
    (hnil : ids [] = [])
    (happ : ∀ l1 l2, ids (l1 ++ l2) = ids l1 ++ ids l2)
    (hop : ∀ s op, IdFamilyStep count ids s op) (s : State) (ops : List Op) :
    count s ≤ count (execTrace s ops).1 ∧
    ids (execTrace s ops).2 =
      List.range' (count s + 1) (count (execTrace s ops).1 - count s) := by
  induction ops generalizing s with
  | nil =>
    refine ⟨Nat.le_refl _, ?_⟩
    show ids [] = List.range' (count s + 1) (count s - count s)
    rw [hnil, Nat.sub_self]
    rfl
  | cons op rest ih =>
    obtain ⟨h1, h2⟩ := hop s op
    obtain ⟨ih1, ih2⟩ := ih (runOp s op).1
    constructor
    · exact Nat.le_trans h1 ih1
    · show ids ((runOp s op).2 ++ (execTrace (runOp s op).1 rest).2) =
        List.range' (count s + 1) (count (execTrace (runOp s op).1 rest).1 - count s)
      rw [happ, h2, ih2]
      have h3 := List.range'_append (count s + 1) (count (runOp s op).1 - count s)
        (count (execTrace (runOp s op).1 rest).1 - count (runOp s op).1) 1
      have e1 : count s + 1 + 1 * (count (runOp s op).1 - count s) =
          count (runOp s op).1 + 1 := by omega
      have e2 : count (execTrace (runOp s op).1 rest).1 - count (runOp s op).1 +
          (count (runOp s op).1 - count s) =
          count (execTrace (runOp s op).1 rest).1 - count s := by omega
      rw [e1, e2] at h3
      exact h3

/-- A call that creates no demand record and emits no demand id leaves the
demand-id family untouched. -/
theorem demand_noop (s : State) (out : State × List Event)
    (hcount : out.1.demandCount = s.demandCount)
    (hid : demandIds out.2 = []) :
    out.1.demandCount = s.demandCount + 0 ∧
    demandIds out.2 =
      List.range' (s.demandCount + 1) (out.1.demandCount - s.demandCount) := by
  rw [hcount, hid, Nat.sub_self]
  exact ⟨rfl, rfl⟩

/-- A call that creates exactly the next demand record emits exactly the
next demand id. -/
theorem demand_hit (s : State) (out : State × List Event)
    (hcount : out.1.demandCount = s.demandCount + 1)
    (hid : demandIds out.2 = [s.demandCount + 1]) :
    out.1.demandCount = s.demandCount + 1 ∧
    demandIds out.2 =
      List.range' (s.demandCount + 1) (out.1.demandCount - s.demandCount) := by
  rw [hcount, hid, Nat.add_sub_cancel_left]
  exact ⟨rfl, rfl⟩

theorem supply_noop (s : State) (out : State × List Event)
    (hcount : out.1.supplyCount = s.supplyCount)
    (hid : supplyIds out.2 = []) :
    out.1.supplyCount = s.supplyCount + 0 ∧
    supplyIds out.2 =
      List.range' (s.supplyCount + 1) (out.1.supplyCount - s.supplyCount) := by
  rw [hcount, hid, Nat.sub_self]
  exact ⟨rfl, rfl⟩

theorem supply_hit (s : State) (out : State × List Event)
    (hcount : out.1.supplyCount = s.supplyCount + 1)
    (hid : supplyIds out.2 = [s.supplyCount + 1]) :
    out.1.supplyCount = s.supplyCount + 1 ∧
    supplyIds out.2 =
      List.range' (s.supplyCount + 1) (out.1.supplyCount - s.supplyCount) := by
  rw [hcount, hid, Nat.add_sub_cancel_left]
  exact ⟨rfl, rfl⟩

theorem pricing_noop (s : State) (out : State × List Event)
    (hcount : out.1.pricingCount = s.pricingCount)
    (hid : pricingIds out.2 = []) :
    s.pricingCount ≤ out.1.pricingCount ∧
    pricingIds out.2 =
      List.range' (s.pricingCount + 1) (out.1.pricingCount - s.pricingCount) := by
  rw [hcount, hid, Nat.sub_self]
  exact ⟨Nat.le_refl _, rfl⟩

theorem pricing_hit (s : State) (out : State × List Event)
    (hcount : out.1.pricingCount = s.pricingCount + 1)
    (hid : pricingIds out.2 = [s.pricingCount + 1]) :
    s.pricingCount ≤ out.1.pricingCount ∧
    pricingIds out.2 =
      List.range' (s.pricingCount + 1) (out.1.pricingCount - s.pricingCount) := by
  rw [hcount, hid, Nat.add_sub_cancel_left]
  exact ⟨Nat.le_succ _, rfl⟩

/-- Single-call shape for demand ids, together with the exact counter
increment: `recordDemand` never reverts and allocates the next id; every
other call leaves `demandCount` alone and emits no demand id. -/
theorem demand_runOp (s : State) (op : Op) :
    (runOp s op).1.demandCount = s.demandCount + demandDelta op ∧
    demandIds (runOp s op).2 =
      List.range' (s.demandCount + 1) ((runOp s op).1.demandCount - s.demandCount) := by
  cases op with
  | recordDemand z c ts => exact demand_hit s (runOp s (Op.recordDemand z c ts)) rfl rfl
  | recordSupply z d ts => exact demand_noop s (runOp s (Op.recordSupply z d ts)) rfl rfl
  | calculateSurgePricing d su r =>
    simp only [runOp, step]
    cases hc : calculateSurgePricing s d su r with
    | ok out =>
      obtain ⟨-, -, hs, hev⟩ := calculateSurgePricing_ok s d su r out hc
      exact demand_noop s out (by rw [hs]) (by rw [hev]; rfl)
    | error e => exact demand_noop s (s, []) rfl rfl
  | computePricing r cts p =>
    simp only [runOp, step]
    cases hc : computePricing s r cts p with
    | ok out =>
      obtain ⟨-, -, -, dz, rc, sz, ad, rest, m, -, -, -, hs, hev⟩ :=
        computePricing_ok s r cts p out hc
      exact demand_noop s out (by rw [hs]) (by rw [hev]; rfl)
    | error e => exact demand_noop s (s, []) rfl rfl
  | verifyPricing pid r =>
    simp only [runOp, step]
    cases hc : verifyPricing s pid r with
    | ok out =>
      obtain ⟨-, hs, hev⟩ := verifyPricing_ok s pid r out hc
      exact demand_noop s out (by rw [hs]) (by rw [hev]; rfl)
    | error e => exact demand_noop s (s, []) rfl rfl
  | validatePricing r cts p =>
    simp only [runOp, step]
    cases hc : validatePricing s r cts p with
    | ok out =>
      obtain ⟨-, -, hcase⟩ := validatePricing_ok s r cts p out hc
      rcases hcase with ⟨hs, hev⟩ | ⟨hs, hev⟩ <;>
        exact demand_noop s out (by rw [hs]) (by rw [hev]; rfl)
    | error e => exact demand_noop s (s, []) rfl rfl
  | requestPricingProof pid r =>
    simp only [runOp, step]
    cases hc : requestPricingProof s pid r with
    | ok out =>
      obtain ⟨-, -, hs, hev⟩ := requestPricingProof_ok s pid r out hc
      exact demand_noop s out (by rw [hs]) (by rw [hev]; rfl)
    | error e => exact demand_noop s (s, []) rfl rfl
  | decryptMultiplier r cts p =>
    simp only [runOp, step]
    cases hc : decryptMultiplier s r cts p with
    | ok out =>
      obtain ⟨-, -, hs, hev⟩ := decryptMultiplier_ok s r cts p out hc
      exact demand_noop s out (by rw [hs]) (by rw [hev]; rfl)
    | error e => exact demand_noop s (s, []) rfl rfl

/-- Single-call shape for supply ids, symmetric to `demand_runOp`. -/
theorem supply_runOp (s : State) (op : Op) :
    (runOp s op).1.supplyCount = s.supplyCount + supplyDelta op ∧
    supplyIds (runOp s op).2 =
      List.range' (s.supplyCount + 1) ((runOp s op).1.supplyCount - s.supplyCount) := by
  cases op with
  | recordDemand z c ts => exact supply_noop s (runOp s (Op.recordDemand z c ts)) rfl rfl
  | recordSupply z d ts => exact supply_hit s (runOp s (Op.recordSupply z d ts)) rfl rfl
  | calculateSurgePricing d su r =>
    simp only [runOp, step]
    cases hc : calculateSurgePricing s d su r with
    | ok out =>
      obtain ⟨-, -, hs, hev⟩ := calculateSurgePricing_ok s d su r out hc
      exact supply_noop s out (by rw [hs]) (by rw [hev]; rfl)
    | error e => exact supply_noop s (s, []) rfl rfl
  | computePricing r cts p =>
    simp only [runOp, step]
    cases hc : computePricing s r cts p with
    | ok out =>
      obtain ⟨-, -, -, dz, rc, sz, ad, rest, m, -, -, -, hs, hev⟩ :=
        computePricing_ok s r cts p out hc
      exact supply_noop s out (by rw [hs]) (by rw [hev]; rfl)
    | error e => exact supply_noop s (s, []) rfl rfl
  | verifyPricing pid r =>
    simp only [runOp, step]
    cases hc : verifyPricing s pid r with
    | ok out =>
      obtain ⟨-, hs, hev⟩ := verifyPricing_ok s pid r out hc
      exact supply_noop s out (by rw [hs]) (by rw [hev]; rfl)
    | error e => exact supply_noop s (s, []) rfl rfl
  | validatePricing r cts p =>
    simp only [runOp, step]
    cases hc : validatePricing s r cts p with
    | ok out =>
      obtain ⟨-, -, hcase⟩ := validatePricing_ok s r cts p out hc
      rcases hcase with ⟨hs, hev⟩ | ⟨hs, hev⟩ <;>
        exact supply_noop s out (by rw [hs]) (by rw [hev]; rfl)
    | error e => exact supply_noop s (s, []) rfl rfl
  | requestPricingProof pid r =>
    simp only [runOp, step]
    cases hc : requestPricingProof s pid r with
    | ok out =>
      obtain ⟨-, -, hs, hev⟩ := requestPricingProof_ok s pid r out hc
      exact supply_noop s out (by rw [hs]) (by rw [hev]; rfl)
    | error e => exact supply_noop s (s, []) rfl rfl
  | decryptMultiplier r cts p =>
    simp only [runOp, step]
    cases hc : decryptMultiplier s r cts p with
    | ok out =>
      obtain ⟨-, -, hs, hev⟩ := decryptMultiplier_ok s r cts p out hc
      exact supply_noop s out (by rw [hs]) (by rw [hev]; rfl)
    | error e => exact supply_noop s (s, []) rfl rfl

/-- Single-call shape for pricing ids: only a successful `computePricing`
callback allocates one, and it emits exactly the next pricing id. -/
theorem pricing_runOp (s : State) (op : Op) :
    IdFamilyStep State.pricingCount pricingIds s op := by
  cases op with
  | recordDemand z c ts => exact pricing_noop s (runOp s (Op.recordDemand z c ts)) rfl rfl
  | recordSupply z d ts => exact pricing_noop s (runOp s (Op.recordSupply z d ts)) rfl rfl
  | calculateSurgePricing d su r =>
    simp only [IdFamilyStep, runOp, step]
    cases hc : calculateSurgePricing s d su r with
    | ok out =>
      obtain ⟨-, -, hs, hev⟩ := calculateSurgePricing_ok s d su r out hc
      exact pricing_noop s out (by rw [hs]) (by rw [hev]; rfl)
    | error e => exact pricing_noop s (s, []) rfl rfl
  | computePricing r cts p =>
    simp only [IdFamilyStep, runOp, step]
    cases hc : computePricing s r cts p with
    | ok out =>
      obtain ⟨-, -, -, dz, rc, sz, ad, rest, m, -, -, -, hs, hev⟩ :=
        computePricing_ok s r cts p out hc
      exact pricing_hit s out (by rw [hs]) (by rw [hev]; rfl)
    | error e => exact pricing_noop s (s, []) rfl rfl
  | verifyPricing pid r =>
    simp only [IdFamilyStep, runOp, step]
    cases hc : verifyPricing s pid r with
    | ok out =>
      obtain ⟨-, hs, hev⟩ := verifyPricing_ok s pid r out hc
      exact pricing_noop s out (by rw [hs]) (by rw [hev]; rfl)
    | error e => exact pricing_noop s (s, []) rfl rfl
  | validatePricing r cts p =>
    simp only [IdFamilyStep, runOp, step]
    cases hc : validatePricing s r cts p with
    | ok out =>
      obtain ⟨-, -, hcase⟩ := validatePricing_ok s r cts p out hc
      rcases hcase with ⟨hs, hev⟩ | ⟨hs, hev⟩ <;>
        exact pricing_noop s out (by rw [hs]) (by rw [hev]; rfl)
    | error e => exact pricing_noop s (s, []) rfl rfl
  | requestPricingProof pid r =>
    simp only [IdFamilyStep, runOp, step]
    cases hc : requestPricingProof s pid r with
    | ok out =>
      obtain ⟨-, -, hs, hev⟩ := requestPricingProof_ok s pid r out hc
      exact pricing_noop s out (by rw [hs]) (by rw [hev]; rfl)
    | error e => exact pricing_noop s (s, []) rfl rfl
  | decryptMultiplier r cts p =>
    simp only [IdFamilyStep, runOp, step]
    cases hc : decryptMultiplier s r cts p with
    | ok out =>
      obtain ⟨-, -, hs, hev⟩ := decryptMultiplier_ok s r cts p out hc
      exact pricing_noop s out (by rw [hs]) (by rw [hev]; rfl)
    | error e => exact pricing_noop s (s, []) rfl rfl

/-- IdFamilyStep form of `demand_runOp`. -/
theorem demand_idFamilyStep (s : State) (op : Op) :
    IdFamilyStep State.demandCount demandIds s op := by
  obtain ⟨h1, h2⟩ := demand_runOp s op
  refine ⟨?_, h2⟩
  show s.demandCount ≤ (runOp s op).1.demandCount
  omega

/-- IdFamilyStep form of `supply_runOp`. -/
theorem supply_idFamilyStep (s : State) (op : Op) :
    IdFamilyStep State.supplyCount supplyIds s op := by
  obtain ⟨h1, h2⟩ := supply_runOp s op
  refine ⟨?_, h2⟩
  show s.supplyCount ≤ (runOp s op).1.supplyCount
  omega

/-- The demand and supply counters after a trace equal the number of
corresponding submissions in the trace. -/
theorem counts_execTrace (s : State) (ops : List Op) :
    (execTrace s ops).1.demandCount = s.demandCount + (ops.map demandDelta).sum ∧
    (execTrace s ops).1.supplyCount = s.supplyCount + (ops.map supplyDelta).sum := by
  induction ops generalizing s with
  | nil => exact ⟨rfl, rfl⟩
  | cons op rest ih =>
    obtain ⟨ih1, ih2⟩ := ih (runOp s op).1
    constructor
    · show (execTrace (runOp s op).1 rest).1.demandCount = _
      rw [ih1, (demand_runOp s op).1]
      simp only [List.map_cons, List.sum_cons]
      omega
    · show (execTrace (runOp s op).1 rest).1.supplyCount = _
      rw [ih2, (supply_runOp s op).1]
      simp only [List.map_cons, List.sum_cons]
      omega

/-- The multiplier returned by a non-reverting run of the source's pricing
branch agrees with the specification's five-bucket function. -/
theorem surgeMultiplier_eq_spec (rc ad m : Nat)
    (h : surgeMultiplier rc ad = Except.ok m) : m = specMultiplier rc ad := by
  unfold surgeMultiplier at h
  unfold specMultiplier
  split_ifs at h ⊢ <;> cases h <;> rfl

/-- When every earlier check passes but the decrypted zones differ, the
pairing callback reverts with exactly the zone-mismatch error. -/
theorem computePricing_zoneMismatch (s : State) (reqId dz rc sz ad : Nat)
    (rest : List Nat) (h1 : s.requestToDemandId reqId ≠ 0)
    (h2 : s.requestToSupplyId reqId ≠ 0)
    (hb : dz < UINT32 ∧ rc < UINT32 ∧ sz < UINT32 ∧ ad < UINT32)
    (hne : dz ≠ sz) :
    computePricing s reqId (dz :: rc :: sz :: ad :: rest) true =
      Except.error SolError.zoneMismatch := by
  unfold computePricing
  rw [if_neg (by simp [h1, h2]), if_neg (by simp)]
  show (if dz < UINT32 ∧ rc < UINT32 ∧ sz < UINT32 ∧ ad < UINT32 then _ else _) = _
  rw [if_pos hb, if_neg hne]

/-- Claim C1, counterexample: resolution of a correlation handle is not
single-shot in the code.  The pairing callback for request id 7 succeeds
on `sampleState`; the correlation entry is still present afterwards, so
delivering the identical callback again succeeds a second time and bumps
`pricingCount` from 1 to 2 — a second state mutation that the claim says
must be rejected with an unknown-handle error. -/
theorem C1_counterexample :
    stepOk (computePricing sampleState 7 [5, 250, 5, 100] true) = true ∧
    sampleReplayed.pricingCount = 1 ∧
    sampleReplayed.requestToDemandId 7 = 1 ∧
    sampleReplayed.requestToSupplyId 7 = 1 ∧
    stepOk (computePricing sampleReplayed 7 [5, 250, 5, 100] true) = true ∧
    sampleReplayedTwice.pricingCount = 2 :=
  ⟨rfl, rfl, rfl, rfl, rfl, rfl⟩

/-- Claim C1, amended: a callback whose handle has no registered
correlation entry (sentinel value 0 in the request maps) is rejected with
the "Invalid request" error and causes no state change; but a registered
entry is never consumed — a successful pairing callback leaves all three
correlation maps exactly as they were and increments `pricingCount`, so a
replay of the same handle passes the sentinel check again and mutates
state again. -/
theorem C1_replay_behaviour :
    (∀ s reqId cts pOk,
        s.requestToDemandId reqId = 0 ∨ s.requestToSupplyId reqId = 0 →
        computePricing s reqId cts pOk = Except.error SolError.invalidRequest) ∧
    (∀ s reqId cts pOk, s.requestToPricingId reqId = 0 →
        validatePricing s reqId cts pOk = Except.error SolError.invalidRequest) ∧
    (∀ s reqId cts pOk out, computePricing s reqId cts pOk = Except.ok out →
        out.1.requestToDemandId = s.requestToDemandId ∧
        out.1.requestToSupplyId = s.requestToSupplyId ∧
        out.1.requestToPricingId = s.requestToPricingId ∧
        out.1.pricingCount = s.pricingCount + 1) := by
  refine ⟨?_, ?_, ?_⟩
  · intro s reqId cts pOk h
    unfold computePricing
    rw [if_pos h]
  · intro s reqId cts pOk h
    unfold validatePricing
    rw [if_pos h]
  · intro s reqId cts pOk out h
    obtain ⟨-, -, -, dz, rc, sz, ad, rest, m, -, -, -, hs, -⟩ :=
      computePricing_ok s reqId cts pOk out h
    rw [hs]
    exact ⟨rfl, rfl, rfl, rfl⟩

/-- Claim C1, witness for the amended statement at concrete inputs. -/
theorem C1_witness :
    computePricing initState 0 [] true = Except.error SolError.invalidRequest ∧
    validatePricing initState 0 [] true = Except.error SolError.invalidRequest ∧
    (sampleReplayed.requestToDemandId = sampleState.requestToDemandId ∧
     sampleReplayed.requestToSupplyId = sampleState.requestToSupplyId ∧
     sampleReplayed.requestToPricingId = sampleState.requestToPricingId ∧
     sampleReplayed.pricingCount = sampleState.pricingCount + 1) :=
  ⟨C1_replay_behaviour.1 initState 0 [] true (Or.inl rfl),
   C1_replay_behaviour.2.1 initState 0 [] true rfl,
   C1_replay_behaviour.2.2 sampleState 7 [5, 250, 5, 100] true
     (sampleReplayed, [Event.PricingCalculated 1]) rfl⟩

/-- Claim C2: whenever the pricing branch of a pairing callback completes
without reverting, the stored multiplier is exactly the specification's
five-bucket function of the decrypted `(requestCount, availableDrivers)`
pair; and the five bucket samples of the spec hold, with
`availableDrivers = 0` giving 300 for every count. -/
theorem C2_multiplier_matches_spec :
    (∀ rc ad m, surgeMultiplier rc ad = Except.ok m → m = specMultiplier rc ad) ∧
    (∀ s reqId dz rc sz ad rest pOk out,
        computePricing s reqId (dz :: rc :: sz :: ad :: rest) pOk = Except.ok out →
        (out.1.surgePricings (s.pricingCount + 1)).encryptedMultiplier =
          FHE.asEuint32 (specMultiplier rc ad)) ∧
    (∀ c, surgeMultiplier c 0 = Except.ok 300) ∧
    surgeMultiplier 250 100 = Except.ok 250 ∧
    surgeMultiplier 160 100 = Except.ok 200 ∧
    surgeMultiplier 120 100 = Except.ok 150 ∧
    surgeMultiplier 50 100 = Except.ok 100 := by
  refine ⟨surgeMultiplier_eq_spec, ?_, fun c => rfl, rfl, rfl, rfl, rfl⟩
  intro s reqId dz rc sz ad rest pOk out h
  obtain ⟨-, -, -, dz2, rc2, sz2, ad2, rest2, m, hcts, -, hm, hs, -⟩ :=
    computePricing_ok s reqId (dz :: rc :: sz :: ad :: rest) pOk out h
  injection hcts with e1 hcts
  injection hcts with e2 hcts
  injection hcts with e3 hcts
  injection hcts with e4 hcts
  subst e1
  subst e2
  subst e3
  subst e4
  rw [hs]
  show (Function.update s.surgePricings (s.pricingCount + 1)
    ⟨FHE.asEuint32 dz, FHE.asEuint32 m, FHE.asEuint32 1000, false⟩
    (s.pricingCount + 1)).encryptedMultiplier = FHE.asEuint32 (specMultiplier rc ad)
  rw [Function.update_same]
  show FHE.asEuint32 m = FHE.asEuint32 (specMultiplier rc ad)
  rw [surgeMultiplier_eq_spec rc ad m hm]

/-- Claim C2, witness at the spec's own sample points. -/
theorem C2_witness :
    surgeMultiplier 250 100 = Except.ok 250 ∧
    (250 : Nat) = specMultiplier 250 100 ∧
    (sampleReplayed.surgePricings 1).encryptedMultiplier =
      FHE.asEuint32 (specMultiplier 250 100) :=
  ⟨rfl, C2_multiplier_matches_spec.1 250 100 250 rfl,
   C2_multiplier_matches_spec.2.1 sampleState 7 5 250 5 100 [] true
     (sampleReplayed, [Event.PricingCalculated 1]) rfl⟩

/-- Claim C3: disclosure is gated on verification — `requestPricingProof`
on an allocated pricing id whose record is unverified reverts with the
"Not verified" error, a revert leaves the state (in particular the
correlation map) untouched, and a successful call implies the record was
verified. -/
theorem C3_disclosure_gate :
    (∀ s pricingId reqId, pricingId ≤ s.pricingCount →
        (s.surgePricings pricingId).isVerified = false →
        requestPricingProof s pricingId reqId = Except.error SolError.notVerified) ∧
    (∀ s pricingId reqId out,
        requestPricingProof s pricingId reqId = Except.ok out →
        (s.surgePricings pricingId).isVerified = true) ∧
    (∀ s pricingId reqId e,
        requestPricingProof s pricingId reqId = Except.error e →
        runOp s (Op.requestPricingProof pricingId reqId) = (s, [])) := by
  refine ⟨?_, ?_, ?_⟩
  · intro s pricingId reqId h1 hv
    unfold requestPricingProof
    rw [if_pos h1, if_neg (by simp [hv])]
  · intro s pricingId reqId out h
    exact (requestPricingProof_ok s pricingId reqId out h).2.1
  · intro s pricingId reqId e h
    simp only [runOp, step, h]

/-- Claim C3, witness: on the state holding one freshly computed (still
unverified) pricing record, disclosure of record 1 fails with the
"Not verified" error and changes nothing. -/
theorem C3_witness :
    requestPricingProof sampleReplayed 1 9 = Except.error SolError.notVerified ∧
    runOp sampleReplayed (Op.requestPricingProof 1 9) = (sampleReplayed, []) :=
  have h1 : requestPricingProof sampleReplayed 1 9 =
      Except.error SolError.notVerified :=
    C3_disclosure_gate.1 sampleReplayed 1 9 (by decide) (by decide)
  ⟨h1, C3_disclosure_gate.2.2 sampleReplayed 1 9 SolError.notVerified h1⟩

/-- Claim C4: the `isVerified` flag is monotone — a pairing callback
creates its record with `isVerified = false`, and once the flag is true
for a pricing id after any sequence of operations from the deployed
state, no further sequence of operations (any order, any arguments) ever
makes it false again. -/
theorem C4_verified_monotone :
    (∀ s reqId cts pOk out, computePricing s reqId cts pOk = Except.ok out →
        (out.1.surgePricings (s.pricingCount + 1)).isVerified = false) ∧
    (∀ ops more p,
        ((execTrace initState ops).1.surgePricings p).isVerified = true →
        ((execTrace (execTrace initState ops).1 more).1.surgePricings p).isVerified
          = true) := by
  constructor
  · intro s reqId cts pOk out h
    obtain ⟨-, -, -, dz, rc, sz, ad, rest, m, -, -, -, hs, -⟩ :=
      computePricing_ok s reqId cts pOk out h
    rw [hs]
    show (Function.update s.surgePricings (s.pricingCount + 1)
      ⟨FHE.asEuint32 dz, FHE.asEuint32 m, FHE.asEuint32 1000, false⟩
      (s.pricingCount + 1)).isVerified = false
    rw [Function.update_same]
  · intro ops more p hv
    exact isVerified_mono_execTrace (execTrace initState ops).1 more p
      (inv_execTrace initState ops inv_initState) hv

/-- Claim C4, witness: after `sampleTrace` record 1 is verified; it stays
verified across a further verification request, and the record freshly
created by the pairing callback on `sampleState` starts unverified. -/
theorem C4_witness :
    ((execTrace initState sampleTrace).1.surgePricings 1).isVerified = true ∧
    ((execTrace (execTrace initState sampleTrace).1
        [Op.verifyPricing 1 9]).1.surgePricings 1).isVerified = true ∧
    (sampleReplayed.surgePricings 1).isVerified = false :=
  ⟨by decide,
   C4_verified_monotone.2 sampleTrace [Op.verifyPricing 1 9] 1 (by decide),
   C4_verified_monotone.1 sampleState 7 [5, 250, 5, 100] true
     (sampleReplayed, [Event.PricingCalculated 1]) rfl⟩

/-- Claim C5: the zone gate — whenever the decrypted demand zone differs
from the decrypted supply zone, the pairing callback never succeeds, the
reverted call leaves the state (counters, records, correlation entries)
unchanged, and when every earlier check passes the revert reason is
exactly "Zone mismatch". -/
theorem C5_zone_gate :
    ∀ s reqId dz rc sz ad rest pOk, dz ≠ sz →
      (∀ out, computePricing s reqId (dz :: rc :: sz :: ad :: rest) pOk ≠
        Except.ok out) ∧
      runOp s (Op.computePricing reqId (dz :: rc :: sz :: ad :: rest) pOk) =
        (s, []) ∧
      (s.requestToDemandId reqId ≠ 0 → s.requestToSupplyId reqId ≠ 0 →
        pOk = true → dz < UINT32 → rc < UINT32 → sz < UINT32 → ad < UINT32 →
        computePricing s reqId (dz :: rc :: sz :: ad :: rest) pOk =
          Except.error SolError.zoneMismatch) := by
  intro s reqId dz rc sz ad rest pOk hne
  have hnotOk : ∀ out,
      computePricing s reqId (dz :: rc :: sz :: ad :: rest) pOk ≠
        Except.ok out := by
    intro out h
    obtain ⟨-, -, -, dz2, rc2, sz2, ad2, rest2, m, hcts, hzone, -, -, -⟩ :=
      computePricing_ok s reqId (dz :: rc :: sz :: ad :: rest) pOk out h
    injection hcts with e1 hcts
    injection hcts with e2 hcts
    injection hcts with e3 hcts
    subst e1
    subst e3
    exact hne hzone
  refine ⟨hnotOk, ?_, ?_⟩
  · cases hc : computePricing s reqId (dz :: rc :: sz :: ad :: rest) pOk with
    | ok out => exact absurd hc (hnotOk out)
    | error e => simp only [runOp, step, hc]
  · intro h1 h2 h3 h4 h5 h6 h7
    subst h3
    exact computePricing_zoneMismatch s reqId dz rc sz ad rest h1 h2
      ⟨h4, h5, h6, h7⟩ hne

/-- Claim C5, witness: pairing zone 1 demand with zone 2 supply on
`sampleState` reverts with "Zone mismatch" and changes nothing. -/
theorem C5_witness :
    runOp sampleState (Op.computePricing 7 [1, 250, 2, 100] true) =
      (sampleState, []) ∧
    computePricing sampleState 7 [1, 250, 2, 100] true =
      Except.error SolError.zoneMismatch :=
  have h := C5_zone_gate sampleState 7 1 250 2 100 [] true (by decide)
  ⟨h.2.1, h.2.2 (by decide) (by decide) rfl (by decide) (by decide) (by decide)
    (by decide)⟩

/-- Claim C6, counterexample: a failed authenticity proof does not consume
the correlation entry.  On `sampleState` the pairing callback with a bad
proof reverts with the proof error; afterwards the correlation entry for
handle 7 is still registered, and delivering the callback again — same
handle, now with a valid proof — succeeds, so the handle remains
retryable, contrary to the claim. -/
theorem C6_counterexample :
    computePricing sampleState 7 [5, 250, 5, 100] false =
      Except.error SolError.badProof ∧
    (runOp sampleState
      (Op.computePricing 7 [5, 250, 5, 100] false)).1.requestToDemandId 7 = 1 ∧
    (runOp sampleState
      (Op.computePricing 7 [5, 250, 5, 100] false)).1.requestToSupplyId 7 = 1 ∧
    stepOk (computePricing
      (runOp sampleState (Op.computePricing 7 [5, 250, 5, 100] false)).1
      7 [5, 250, 5, 100] true) = true :=
  ⟨rfl, rfl, rfl, rfl⟩

/-- Claim C6, amended: when the authenticity check fails, every callback
reverts with the proof error (fatally for that delivery), and the revert
leaves the whole state unchanged — in particular the correlation entry is
NOT consumed, so the same handle can be retried. -/
theorem C6_bad_proof_reverts :
    ∀ s reqId cts,
      (s.requestToDemandId reqId ≠ 0 → s.requestToSupplyId reqId ≠ 0 →
        computePricing s reqId cts false = Except.error SolError.badProof) ∧
      (s.requestToPricingId reqId ≠ 0 →
        validatePricing s reqId cts false = Except.error SolError.badProof ∧
        decryptMultiplier s reqId cts false = Except.error SolError.badProof) ∧
      runOp s (Op.computePricing reqId cts false) = (s, []) ∧
      runOp s (Op.validatePricing reqId cts false) = (s, []) ∧
      runOp s (Op.decryptMultiplier reqId cts false) = (s, []) := by
  intro s reqId cts
  have hcp : computePricing s reqId cts false = Except.error SolError.badProof ∨
      computePricing s reqId cts false = Except.error SolError.invalidRequest := by
    unfold computePricing
    split
    · exact Or.inr rfl
    · exact Or.inl (by rw [if_pos rfl])
  have hvp : validatePricing s reqId cts false = Except.error SolError.badProof ∨
      validatePricing s reqId cts false = Except.error SolError.invalidRequest := by
    unfold validatePricing
    split
    · exact Or.inr rfl
    · exact Or.inl (by rw [if_pos rfl])
  have hdm : decryptMultiplier s reqId cts false = Except.error SolError.badProof ∨
      decryptMultiplier s reqId cts false = Except.error SolError.invalidRequest := by
    unfold decryptMultiplier
    split
    · exact Or.inr rfl
    · exact Or.inl (by rw [if_pos rfl])
  refine ⟨?_, ?_, ?_, ?_, ?_⟩
  · intro h1 h2
    unfold computePricing
    rw [if_neg (by simp [h1, h2]), if_pos rfl]
  · intro h1
    constructor
    · unfold validatePricing
      rw [if_neg h1, if_pos rfl]
    · unfold decryptMultiplier
      rw [if_neg h1, if_pos rfl]
  · rcases hcp with h | h <;> simp only [runOp, step, h]
  · rcases hvp with h | h <;> simp only [runOp, step, h]
  · rcases hdm with h | h <;> simp only [runOp, step, h]

/-- Claim C6, witness for the amended statement at concrete inputs. -/
theorem C6_witness :
    computePricing sampleState 7 [5, 250, 5, 100] false =
      Except.error SolError.badProof ∧
    runOp sampleState (Op.computePricing 7 [5, 250, 5, 100] false) =
      (sampleState, []) :=
  have h := C6_bad_proof_reverts sampleState 7 [5, 250, 5, 100]
  ⟨h.1 (by decide) (by decide), h.2.2.1⟩

/-- Claim C7, counterexample: the range checks accept id 0 although no
record 0 exists (ids start at 1).  On `sampleState` (one demand, one
supply, no pricing record) the call `calculateSurgePricing 0 1` succeeds
instead of reverting with "Invalid IDs", and `verifyPricing 0` succeeds
although no pricing record exists at all. -/
theorem C7_counterexample :
    sampleState.demandCount = 1 ∧
    stepOk (calculateSurgePricing sampleState 0 1 9) = true ∧
    sampleState.pricingCount = 0 ∧
    stepOk (verifyPricing sampleState 0 9) = true :=
  ⟨rfl, rfl, rfl, rfl⟩

/-- Claim C7, amended: `calculateSurgePricing` reverts with "Invalid IDs"
(before any state change) exactly when `demandId > demandCount` or
`supplyId > supplyCount`; a successful call therefore only guarantees
`demandId ≤ demandCount ∧ supplyId ≤ supplyCount`, which includes the
non-existent id 0.  `verifyPricing` likewise only requires
`pricingId ≤ pricingCount`, accepting 0. -/
theorem C7_range_checks :
    (∀ s d su r, s.demandCount < d ∨ s.supplyCount < su →
        calculateSurgePricing s d su r = Except.error SolError.invalidIds ∧
        runOp s (Op.calculateSurgePricing d su r) = (s, [])) ∧
    (∀ s d su r out, calculateSurgePricing s d su r = Except.ok out →
        d ≤ s.demandCount ∧ su ≤ s.supplyCount) ∧
    (∀ s p r, s.pricingCount < p →
        verifyPricing s p r = Except.error SolError.invalidPricingId ∧
        runOp s (Op.verifyPricing p r) = (s, [])) ∧
    (∀ s p r out, verifyPricing s p r = Except.ok out →
        p ≤ s.pricingCount) := by
  refine ⟨?_, ?_, ?_, ?_⟩
  · intro s d su r h
    have he : calculateSurgePricing s d su r = Except.error SolError.invalidIds := by
      unfold calculateSurgePricing
      rw [if_neg (by omega)]
    exact ⟨he, by simp only [runOp, step, he]⟩
  · intro s d su r out h
    obtain ⟨h1, h2, -, -⟩ := calculateSurgePricing_ok s d su r out h
    exact ⟨h1, h2⟩
  · intro s p r h
    have he : verifyPricing s p r = Except.error SolError.invalidPricingId := by
      unfold verifyPricing
      rw [if_neg (by omega)]
    exact ⟨he, by simp only [runOp, step, he]⟩
  · intro s p r out h
    exact (verifyPricing_ok s p r out h).1

/-- Claim C7, witness: out-of-range ids are rejected with no state
change. -/
theorem C7_witness :
    calculateSurgePricing sampleState 2 1 9 = Except.error SolError.invalidIds ∧
    runOp sampleState (Op.calculateSurgePricing 2 1 9) = (sampleState, []) ∧
    verifyPricing sampleState 1 9 = Except.error SolError.invalidPricingId :=
  have h := C7_range_checks.1 sampleState 2 1 9 (Or.inl (by decide))
  ⟨h.1, h.2, (C7_range_checks.2.2.1 sampleState 1 9 (by decide)).1⟩

/-- Claim C8, counterexample: the pricing branch is not total on the
declared `uint32` domain.  Both 42949673 and 1 are valid `uint32` values,
yet the checked 32-bit product `42949673 * 100` overflows, so the branch
reverts instead of producing a bucket value. -/
theorem C8_counterexample :
    (42949673 : Nat) < UINT32 ∧ (1 : Nat) < UINT32 ∧
    surgeMultiplier 42949673 1 = Except.error SolError.overflow :=
  ⟨by decide, by decide, rfl⟩

/-- Claim C8, amended: on the overflow-free part of the `uint32` domain
(`availableDrivers = 0`, or `requestCount * 100 < 2^32`) the pricing
branch evaluates successfully to exactly one of the five bucket values;
when `availableDrivers ≠ 0` and `requestCount * 100 ≥ 2^32` the checked
32-bit multiplication reverts. -/
theorem C8_multiplier_totality :
    ∀ rc ad : Nat,
      (ad = 0 ∨ rc * 100 < UINT32 →
        ∃ m, surgeMultiplier rc ad = Except.ok m ∧
          (m = 100 ∨ m = 150 ∨ m = 200 ∨ m = 250 ∨ m = 300)) ∧
      (ad ≠ 0 → UINT32 ≤ rc * 100 →
        surgeMultiplier rc ad = Except.error SolError.overflow) := by
  intro rc ad
  constructor
  · intro h
    unfold surgeMultiplier
    by_cases h0 : ad = 0
    · rw [if_pos h0]
      exact ⟨300, rfl, by tauto⟩
    · have hlt : rc * 100 < UINT32 := by
        rcases h with h | h
        · exact absurd h h0
        · exact h
      rw [if_neg h0, if_neg (by omega)]
      split_ifs
      · exact ⟨250, rfl, by tauto⟩
      · exact ⟨200, rfl, by tauto⟩
      · exact ⟨150, rfl, by tauto⟩
      · exact ⟨100, rfl, by tauto⟩
  · intro h0 hov
    unfold surgeMultiplier
    rw [if_neg h0, if_pos hov]

/-- Claim C8, witness for the amended statement at the overflow
boundary. -/
theorem C8_witness :
    (1 : Nat) ≠ 0 ∧ UINT32 ≤ 42949673 * 100 ∧
    surgeMultiplier 42949673 1 = Except.error SolError.overflow :=
  ⟨by decide, by decide,
   (C8_multiplier_totality 42949673 1).2 (by decide) (by decide)⟩

/-- Claim C9: id monotonicity and density — over any operation sequence
from the deployed state, the `DemandRecorded` ids are exactly `1..N` in
call order where `N` is the number of `recordDemand` calls (each of which
succeeds), and similarly for supply ids; the `PricingCalculated` ids are
exactly `1..pricingCount` in order, one per successful pairing callback.
`List.range'` has no gaps or repeats, so no id is ever reused. -/
theorem C9_id_density :
    ∀ ops : List Op,
      (execTrace initState ops).1.demandCount = (ops.map demandDelta).sum ∧
      demandIds (execTrace initState ops).2 =
        List.range' 1 ((ops.map demandDelta).sum) ∧
      (execTrace initState ops).1.supplyCount = (ops.map supplyDelta).sum ∧
      supplyIds (execTrace initState ops).2 =
        List.range' 1 ((ops.map supplyDelta).sum) ∧
      pricingIds (execTrace initState ops).2 =
        List.range' 1 (execTrace initState ops).1.pricingCount := by
  intro ops
  obtain ⟨hd1, hd2⟩ := idFamily_execTrace State.demandCount demandIds rfl
    demandIds_append demand_idFamilyStep initState ops
  obtain ⟨hsu1, hsu2⟩ := idFamily_execTrace State.supplyCount supplyIds rfl
    supplyIds_append supply_idFamilyStep initState ops
  obtain ⟨hp1, hp2⟩ := idFamily_execTrace State.pricingCount pricingIds rfl
    pricingIds_append pricing_runOp initState ops
  obtain ⟨hc1, hc2⟩ := counts_execTrace initState ops
  have h0d : initState.demandCount = 0 := rfl
  have h0s : initState.supplyCount = 0 := rfl
  have h0p : initState.pricingCount = 0 := rfl
  refine ⟨by omega, ?_, by omega, ?_, ?_⟩
  · have e : (execTrace initState ops).1.demandCount - initState.demandCount =
        (ops.map demandDelta).sum := by omega
    rw [e, h0d, Nat.zero_add] at hd2
    exact hd2
  · have e : (execTrace initState ops).1.supplyCount - initState.supplyCount =
        (ops.map supplyDelta).sum := by omega
    rw [e, h0s, Nat.zero_add] at hsu2
    exact hsu2
  · rw [h0p, Nat.zero_add, Nat.sub_zero] at hp2
    exact hp2

/-- Claim C10: frame property of the submission functions — `recordDemand`
never reverts, increments only `demandCount`, writes only the fresh
record (zone handle, count handle, truncated timestamp) at the new id,
and leaves the supply and pricing counters, every other record of every
kind, and all three correlation maps untouched; `recordSupply` is
symmetric. -/
theorem C10_record_frame :
    ∀ s z c ts,
      step s (Op.recordDemand z c ts) = Except.ok (recordDemand s z c ts) ∧
      (recordDemand s z c ts).1.demandCount = s.demandCount + 1 ∧
      (recordDemand s z c ts).1.rideDemands (s.demandCount + 1) =
        ⟨z, c, FHE.asEuint32 (ts % UINT32)⟩ ∧
      (∀ i, i ≠ s.demandCount + 1 →
        (recordDemand s z c ts).1.rideDemands i = s.rideDemands i) ∧
      (recordDemand s z c ts).1.supplyCount = s.supplyCount ∧
      (recordDemand s z c ts).1.pricingCount = s.pricingCount ∧
      (recordDemand s z c ts).1.driverSupplies = s.driverSupplies ∧
      (recordDemand s z c ts).1.surgePricings = s.surgePricings ∧
      (recordDemand s z c ts).1.requestToDemandId = s.requestToDemandId ∧
      (recordDemand s z c ts).1.requestToSupplyId = s.requestToSupplyId ∧
      (recordDemand s z c ts).1.requestToPricingId = s.requestToPricingId ∧
      (recordDemand s z c ts).2 = [Event.DemandRecorded (s.demandCount + 1)] ∧
      step s (Op.recordSupply z c ts) = Except.ok (recordSupply s z c ts) ∧
      (recordSupply s z c ts).1.supplyCount = s.supplyCount + 1 ∧
      (recordSupply s z c ts).1.driverSupplies (s.supplyCount + 1) =
        ⟨z, c, FHE.asEuint32 (ts % UINT32)⟩ ∧
      (∀ i, i ≠ s.supplyCount + 1 →
        (recordSupply s z c ts).1.driverSupplies i = s.driverSupplies i) ∧
      (recordSupply s z c ts).1.demandCount = s.demandCount ∧
      (recordSupply s z c ts).1.pricingCount = s.pricingCount ∧
      (recordSupply s z c ts).1.rideDemands = s.rideDemands ∧
      (recordSupply s z c ts).1.surgePricings = s.surgePricings ∧
      (recordSupply s z c ts).1.requestToDemandId = s.requestToDemandId ∧
      (recordSupply s z c ts).1.requestToSupplyId = s.requestToSupplyId ∧
      (recordSupply s z c ts).1.requestToPricingId = s.requestToPricingId ∧
      (recordSupply s z c ts).2 = [Event.SupplyRecorded (s.supplyCount + 1)] := by
  intro s z c ts
  refine ⟨rfl, rfl, ?_, ?_, rfl, rfl, rfl, rfl, rfl, rfl, rfl, rfl,
    rfl, rfl, ?_, ?_, rfl, rfl, rfl, rfl, rfl, rfl, rfl, rfl⟩
  · show Function.update s.rideDemands (s.demandCount + 1)
      ⟨z, c, FHE.asEuint32 (ts % UINT32)⟩ (s.demandCount + 1) = _
    rw [Function.update_same]
  · intro i hi
    show Function.update s.rideDemands (s.demandCount + 1)
      ⟨z, c, FHE.asEuint32 (ts % UINT32)⟩ i = s.rideDemands i
    exact Function.update_noteq hi _ _
  · show Function.update s.driverSupplies (s.supplyCount + 1)
      ⟨z, c, FHE.asEuint32 (ts % UINT32)⟩ (s.supplyCount + 1) = _
    rw [Function.update_same]
  · intro i hi
    show Function.update s.driverSupplies (s.supplyCount + 1)
      ⟨z, c, FHE.asEuint32 (ts % UINT32)⟩ i = s.driverSupplies i
    exact Function.update_noteq hi _ _

/-- Claim C10, witness at a concrete submission. -/
theorem C10_witness :
    (recordDemand initState ⟨3⟩ ⟨4⟩ 77).1.demandCount = 1 ∧
    (recordDemand initState ⟨3⟩ ⟨4⟩ 77).1.rideDemands 5 = initState.rideDemands 5 ∧
    (recordSupply initState ⟨3⟩ ⟨4⟩ 77).1.supplyCount = 1 :=
  have h := C10_record_frame initState ⟨3⟩ ⟨4⟩ 77
  ⟨h.2.1, h.2.2.2.1 5 (by decide), h.2.2.2.2.2.2.2.2.2.2.2.2.2.1⟩

end RideSurgeFHE
